import Mathlib

/-!
Verification of the account-security subsystem of the
Multi-Tenant-Task-Management-API repository.

The development shallowly embeds the Python sources:
  app/core/security.py      (JWT issuance / verification, refresh)
  app/services/security.py  (lockout counter, password history, rate limiter)
  app/services/auth.py      (authentication orchestration)
  app/services/user.py      (change_password)

Wall-clock time is passed explicitly as an integer number of unix seconds
(`now`).  Python timedelta values are embedded as signed integers of
seconds (timedelta is signed; the test-suite of the repository itself
constructs negative deltas).  The Redis store is embedded as explicit
state: each key maps to a value together with an optional absolute expiry
time; a key whose expiry is in the past behaves as absent, exactly as a
Redis TTL does.
-/

namespace TaskAPI

/-- Security-relevant configuration fields of app/core/config.py, class
Settings, exactly as declared there: the class defines SECRET_KEY,
JWT_SECRET_KEY and JWT_ALGORITHM — it declares NO field named ALGORITHM.
Lifetimes are nonnegative configuration integers, as in the pydantic
model (int fields holding minutes and days). -/
structure Settings where
  SECRET_KEY : String
  JWT_SECRET_KEY : String
  JWT_ALGORITHM : String
  ACCESS_TOKEN_EXPIRE_MINUTES : Nat
  REFRESH_TOKEN_EXPIRE_DAYS : Nat
deriving DecidableEq

/-- Python attribute read `settings.<name>` for the string-valued
security fields.  The Settings class is a pydantic-settings v2
BaseSettings whose Config sets only case_sensitive and env_file, so
extra inputs are ignored and only declared fields become attributes;
reading an undeclared attribute raises AttributeError, modelled as
none.  app/core/security.py reads settings.ALGORITHM on every encode
and decode, and config.py declares JWT_ALGORITHM instead, so that read
falls through to the none case. -/
def Settings.strAttr (s : Settings) : String → Option String
  | "SECRET_KEY" => some s.SECRET_KEY
  | "JWT_SECRET_KEY" => some s.JWT_SECRET_KEY
  | "JWT_ALGORITHM" => some s.JWT_ALGORITHM
  | _ => none

/-- Decoded JWT claims as built by app/core/security.py: `exp` and `sub`
are always present in tokens issued by this module; `type` is present
(with value "refresh") only on refresh tokens. -/
structure JwtPayload where
  exp : Int
  sub : String
  type? : Option String := none
deriving DecidableEq

/-- A token as produced by jose jwt.encode: the claims plus the signing
key and algorithm baked into the signature. -/
structure Jwt where
  payload : JwtPayload
  key : String
  alg : String
deriving DecidableEq

/-- jose jwt.encode. -/
def jwtEncode (payload : JwtPayload) (key alg : String) : Jwt :=
  { payload := payload, key := key, alg := alg }

/-- jose jwt.decode with default options: the signature must verify
(same key, algorithm among the allowed ones) and the exp claim is
validated with zero leeway — jose raises ExpiredSignatureError (a
JWTError) when exp < now.  Failure is `none` (the callers in
app/core/security.py catch JWTError). -/
def jwtDecode (token : Jwt) (key : String) (algs : List String) (now : Int) :
    Option JwtPayload :=
  if token.key = key ∧ token.alg ∈ algs ∧ ¬ (token.payload.exp < now)
  then some token.payload else none

/-- app/core/security.py create_access_token.  `expires_delta` embeds the
Optional[timedelta] argument as an optional signed number of seconds.
Python tests the argument with `if expires_delta:`, which is falsy both
for None and for timedelta(0), so a zero delta falls back to the
configured default, `ACCESS_TOKEN_EXPIRE_MINUTES` minutes.  Python
applies str() to the subject; subjects are embedded as strings already.
The call jwt.encode(to_encode, settings.SECRET_KEY,
algorithm=settings.ALGORITHM) evaluates its arguments left to right:
the SECRET_KEY read succeeds, the ALGORITHM read raises AttributeError,
and this function has no handler, so the exception escapes (the error
value names the exception type). -/
def create_access_token (s : Settings) (subject : String)
    (expires_delta : Option Int) (now : Int) : Except String Jwt :=
  let expire : Int :=
    match expires_delta with
    | some d =>
      if d ≠ 0 then now + d
      else now + (s.ACCESS_TOKEN_EXPIRE_MINUTES : Int) * 60
    | none => now + (s.ACCESS_TOKEN_EXPIRE_MINUTES : Int) * 60
  match s.strAttr "SECRET_KEY", s.strAttr "ALGORITHM" with
  | some key, some alg =>
    Except.ok (jwtEncode { exp := expire, sub := subject, type? := none }
      key alg)
  | _, _ => Except.error "AttributeError"

/-- app/core/security.py create_refresh_token: ttl is the configured
number of days, the payload carries `type = "refresh"`, and the same
settings.ALGORITHM read raises AttributeError with no handler. -/
def create_refresh_token (s : Settings) (subject : String) (now : Int) :
    Except String Jwt :=
  match s.strAttr "SECRET_KEY", s.strAttr "ALGORITHM" with
  | some key, some alg =>
    Except.ok (jwtEncode
      { exp := now + (s.REFRESH_TOKEN_EXPIRE_DAYS : Int) * 86400
        sub := subject
        type? := some "refresh" }
      key alg)
  | _, _ => Except.error "AttributeError"

/-- app/core/security.py verify_token: jwt.decode under
settings.SECRET_KEY and [settings.ALGORITHM] inside `except
jwt.JWTError`, which returns None on a caught JWTError (bad signature,
expired).  AttributeError from the settings.ALGORITHM read is not a
JWTError, so it escapes the handler. -/
def verify_token (s : Settings) (token : Jwt) (now : Int) :
    Except String (Option JwtPayload) :=
  match s.strAttr "SECRET_KEY", s.strAttr "ALGORITHM" with
  | some key, some alg => Except.ok (jwtDecode token key [alg] now)
  | _, _ => Except.error "AttributeError"

/-- app/core/security.py SecurityUtils.refresh_access_token: verify, then
require `type == "refresh"` and a truthy `sub` (an empty string is falsy
in Python), then issue a fresh access token with the default ttl.  The
function has no exception handler, so the AttributeError escaping
verify_token escapes here as well. -/
def refresh_access_token (s : Settings) (token : Jwt) (now : Int) :
    Except String (Option Jwt) :=
  match verify_token s token now with
  | Except.error e => Except.error e
  | Except.ok none => Except.ok none
  | Except.ok (some payload) =>
    if payload.type? ≠ some "refresh" then Except.ok none
    else
      let user_id := payload.sub
      if user_id = "" then Except.ok none
      else
        match create_access_token s user_id none now with
        | Except.error e => Except.error e
        | Except.ok tok => Except.ok (some tok)

/-- Token pair returned by SecurityUtils.create_token_response, which is
also the shape of LoginResponse in app/schemas/user.py. -/
structure TokenResponse where
  access_token : Jwt
  refresh_token : Jwt
  token_type : String
deriving DecidableEq

/-- app/core/security.py SecurityUtils.create_token_response: issues the
access token first, then the refresh token; the first escaping exception
propagates (the function has no handler). -/
def create_token_response (s : Settings) (user_id : String) (now : Int) :
    Except String TokenResponse :=
  match create_access_token s user_id none now with
  | Except.error e => Except.error e
  | Except.ok a =>
    match create_refresh_token s user_id now with
    | Except.error e => Except.error e
    | Except.ok r =>
      Except.ok { access_token := a, refresh_token := r
                  token_type := "bearer" }

/-- Concrete settings used for counterexamples and witnesses. -/
def testSettings : Settings :=
  { SECRET_KEY := "secret"
    JWT_SECRET_KEY := "jwtsecret"
    JWT_ALGORITHM := "HS256"
    ACCESS_TOKEN_EXPIRE_MINUTES := 30
    REFRESH_TOKEN_EXPIRE_DAYS := 7 }

/-! Redis model.  Every stored value carries an optional absolute expiry
time; a key whose expiry time is ≤ now behaves exactly as an absent key
(Redis deletes expired keys lazily, observably equivalent).  The four
value shapes used by the repository (integer counters via INCR, lists,
sorted sets, plain strings via SETEX) are kept in separate maps; the key
strings used by the code are disjoint across shapes, so this matches the
single Redis keyspace on every state the code can reach. -/

/-- A Python value of type str or bytes.  Both Redis clients the
repository constructs (app/db/redis.py get_redis and the tests
conftest.py fixture) pass decode_responses=True, so every reply item is
a str; the bytes constructor models values produced by .encode().  In
Python 3 a bytes value never compares equal to a str value, whatever
the contents. -/
inductive PyStr where
  | str (s : String)
  | bytes (s : String)
deriving DecidableEq

/-- Whether a PyStr is a str (as every decode_responses=True reply
is). -/
def PyStr.isStr : PyStr → Bool
  | PyStr.str _ => true
  | PyStr.bytes _ => false

/-- Pointwise update of a keyed map. -/
def upd {α : Type} (f : String → Option α) (k : String) (v : Option α) :
    String → Option α :=
  fun x => if x = k then v else f x

/-- Whether a value with the given optional expiry is still live at `now`
(no expiry means the key is persistent). -/
def liveUntil (now : Int) : Option Int → Bool
  | none => true
  | some t => decide (now < t)

/-- The Redis keyspace used by the security subsystem. -/
structure RedisState where
  counters : String → Option (Int × Option Int)
  lists : String → Option (List PyStr × Option Int)
  zsets : String → Option (List (String × Int) × Option Int)
  strings : String → Option (Jwt × Option Int)

/-- The empty keyspace. -/
def emptyRedis : RedisState :=
  { counters := fun _ => none
    lists := fun _ => none
    zsets := fun _ => none
    strings := fun _ => none }

/-- Live view of a counter key: its value and expiry, or none when the
key is absent or expired. -/
def counterVal (st : RedisState) (key : String) (now : Int) :
    Option (Int × Option Int) :=
  match st.counters key with
  | some (v, e) => if liveUntil now e then some (v, e) else none
  | none => none

/-- Redis GET on an integer counter key (the code applies int() to the
reply). -/
def redisGet (st : RedisState) (key : String) (now : Int) : Option Int :=
  (counterVal st key now).map Prod.fst

/-- Redis INCR: increments an existing live key, keeping its TTL;
creates an absent or expired key with value 1 and no TTL.  Returns the
value after the increment. -/
def redisIncr (st : RedisState) (key : String) (now : Int) :
    RedisState × Int :=
  match counterVal st key now with
  | some (v, e) =>
    ({ st with counters := upd st.counters key (some (v + 1, e)) }, v + 1)
  | none =>
    ({ st with counters := upd st.counters key (some (1, none)) }, 1)

/-- Redis EXPIRE on a counter key: sets the expiry of a live key to
now + seconds; a no-op on an absent or expired key. -/
def redisExpireCounter (st : RedisState) (key : String) (seconds now : Int) :
    RedisState :=
  match counterVal st key now with
  | some (v, _) =>
    { st with counters := upd st.counters key (some (v, some (now + seconds))) }
  | none => st

/-- Redis DEL on a counter key. -/
def redisDelCounter (st : RedisState) (key : String) : RedisState :=
  { st with counters := upd st.counters key none }

/-- Live view of a list key (absent or expired reads as the empty list). -/
def listVal (st : RedisState) (key : String) (now : Int) : List PyStr :=
  match st.lists key with
  | some (l, e) => if liveUntil now e then l else []
  | none => []

/-- Redis LPUSH: prepends to a live list, keeping its TTL; an absent or
expired key becomes a fresh one-element persistent list. -/
def redisLpush (st : RedisState) (key : String) (v : PyStr) (now : Int) :
    RedisState :=
  match st.lists key with
  | some (l, e) =>
    if liveUntil now e
    then { st with lists := upd st.lists key (some (v :: l, e)) }
    else { st with lists := upd st.lists key (some ([v], none)) }
  | none => { st with lists := upd st.lists key (some ([v], none)) }

/-- Redis LTRIM start stop (nonnegative indices, as used by the code):
keeps the elements at indices start..stop inclusive of a live list. -/
def redisLtrim (st : RedisState) (key : String) (start stop : Nat)
    (now : Int) : RedisState :=
  match st.lists key with
  | some (l, e) =>
    if liveUntil now e
    then
      let trimmed := (l.drop start).take (stop + 1 - start)
      { st with lists := upd st.lists key (some (trimmed, e)) }
    else st
  | none => st

/-- Redis LRANGE start stop (nonnegative indices, as used by the code);
with decode_responses=True every returned item is a str. -/
def redisLrange (st : RedisState) (key : String) (start stop : Nat)
    (now : Int) : List PyStr :=
  ((listVal st key now).drop start).take (stop + 1 - start)

/-- Redis EXPIRE on a list key. -/
def redisExpireList (st : RedisState) (key : String) (seconds now : Int) :
    RedisState :=
  match st.lists key with
  | some (l, e) =>
    if liveUntil now e
    then { st with lists := upd st.lists key (some (l, some (now + seconds))) }
    else st
  | none => st

/-- Live view of a sorted-set key as a member/score association list
(every operation the code uses is insensitive to the internal ordering,
so the list order is irrelevant). -/
def zsetVal (st : RedisState) (key : String) (now : Int) :
    List (String × Int) :=
  match st.zsets key with
  | some (l, e) => if liveUntil now e then l else []
  | none => []

/-- ZADD member semantics: inserting a member that is already present
replaces its score (member names are unique in a sorted set). -/
def zaddEntry (l : List (String × Int)) (member : String) (score : Int) :
    List (String × Int) :=
  (member, score) :: l.filter (fun p => p.1 != member)

/-- Redis ZADD key {member: score}: upsert into a live set, keeping its
TTL; an absent or expired key becomes a fresh persistent singleton. -/
def redisZadd (st : RedisState) (key member : String) (score : Int)
    (now : Int) : RedisState :=
  match st.zsets key with
  | some (l, e) =>
    if liveUntil now e
    then { st with zsets := upd st.zsets key (some (zaddEntry l member score, e)) }
    else { st with zsets := upd st.zsets key (some ([(member, score)], none)) }
  | none => { st with zsets := upd st.zsets key (some ([(member, score)], none)) }

/-- Redis ZREMRANGEBYSCORE key lo hi: removes members whose score lies in
the closed interval [lo, hi] of a live set. -/
def redisZremrangebyscore (st : RedisState) (key : String) (lo hi : Int)
    (now : Int) : RedisState :=
  match st.zsets key with
  | some (l, e) =>
    if liveUntil now e
    then
      let kept := l.filter (fun p => !(decide (lo ≤ p.2) && decide (p.2 ≤ hi)))
      { st with zsets := upd st.zsets key (some (kept, e)) }
    else st
  | none => st

/-- Redis ZCOUNT key lo +inf: counts members with score ≥ lo. -/
def redisZcount (st : RedisState) (key : String) (lo : Int) (now : Int) : Nat :=
  ((zsetVal st key now).filter (fun p => decide (lo ≤ p.2))).length

/-- Redis EXPIRE on a sorted-set key. -/
def redisExpireZset (st : RedisState) (key : String) (seconds now : Int) :
    RedisState :=
  match st.zsets key with
  | some (l, e) =>
    if liveUntil now e
    then { st with zsets := upd st.zsets key (some (l, some (now + seconds))) }
    else st
  | none => st

/-- Redis SETEX key seconds value.  The only plain-string values this
subsystem stores are encoded JWTs, embedded here as Jwt values (jwt
encoding is modelled structurally). -/
def redisSetex (st : RedisState) (key : String) (seconds : Int) (v : Jwt)
    (now : Int) : RedisState :=
  { st with strings := upd st.strings key (some (v, some (now + seconds))) }

/-! app/services/security.py SecurityService.  The constructor fixes
password_attempt_expiry = 3600 seconds and max_login_attempts = 5. -/

/-- SecurityService.password_attempt_expiry (1 hour). -/
def password_attempt_expiry : Int := 3600

/-- SecurityService.max_login_attempts. -/
def max_login_attempts : Int := 5

/-- The per-account failed-login counter key. -/
def failedLoginKey (user_id : String) : String := "failed_login:" ++ user_id

/-- The per-account password-history list key. -/
def passwordHistoryKey (user_id : String) : String :=
  "password_history:" ++ user_id

/-- SecurityService.record_failed_login: INCR the per-account counter,
set a 1-hour expiry when the increment created the key (attempts == 1),
and report whether attempts ≥ max_login_attempts. -/
def record_failed_login (st : RedisState) (user_id : String) (now : Int) :
    RedisState × Bool :=
  let key := failedLoginKey user_id
  let r := redisIncr st key now
  let attempts := r.2
  let st1 := if attempts = 1
             then redisExpireCounter r.1 key password_attempt_expiry now
             else r.1
  (st1, decide (max_login_attempts ≤ attempts))

/-- SecurityService.clear_failed_logins: DEL the per-account counter. -/
def clear_failed_logins (st : RedisState) (user_id : String) : RedisState :=
  redisDelCounter st (failedLoginKey user_id)

/-- SecurityService.is_account_locked: a GET returning nothing means not
locked; otherwise locked iff the counter is ≥ max_login_attempts. -/
def is_account_locked (st : RedisState) (user_id : String) (now : Int) : Bool :=
  match redisGet st (failedLoginKey user_id) now with
  | none => false
  | some attempts => decide (max_login_attempts ≤ attempts)

/-- SecurityService.check_password_history: LRANGE 0 4 (the last 5
recorded hashes) and the test `new_password_hash.encode() not in
password_history`.  The candidate is encoded to BYTES, while the reply
items of the decode_responses=True client are str values, so the
membership test compares bytes against str. -/
def check_password_history (st : RedisState) (user_id : String)
    (new_password_hash : String) (now : Int) : Bool :=
  let password_history := redisLrange st (passwordHistoryKey user_id) 0 4 now
  !(password_history.contains (PyStr.bytes new_password_hash))

/-- SecurityService.add_to_password_history: LPUSH of the hash (a str),
LTRIM 0 4, and reset of the 180-day expiry of the whole list. -/
def add_to_password_history (st : RedisState) (user_id : String)
    (password_hash : String) (now : Int) : RedisState :=
  let key := passwordHistoryKey user_id
  let st1 := redisLpush st key (PyStr.str password_hash) now
  let st2 := redisLtrim st1 key 0 4 now
  redisExpireList st2 key (180 * 24 * 3600) now

/-- SecurityService.enforce_rate_limit: record now under the key, purge
scores in [0, now - window_seconds], count scores ≥ now - window_seconds,
refresh the key expiry to window_seconds, and permit iff the count is at
most max_requests.  The Python float timestamp is embedded as an integer
number of seconds; the recorded member name is str(now), so two calls at
the identical timestamp collapse to one member, just as in the source. -/
def enforce_rate_limit (st : RedisState) (key : String) (max_requests : Nat)
    (window_seconds now : Int) : RedisState × Bool :=
  let window_start := now - window_seconds
  let st1 := redisZadd st key (toString now) now now
  let st2 := redisZremrangebyscore st1 key 0 window_start now
  let request_count := redisZcount st2 key window_start now
  let st3 := redisExpireZset st2 key window_seconds now
  (st3, decide (request_count ≤ max_requests))

/-! app/services/auth.py AuthService and app/services/user.py
UserService.change_password.  The user repository is embedded as a list
of user rows; bcrypt hashing and verification
(app/core/security.py verify_password / get_password_hash) are external
one-way functions and are passed in as parameters `verifyPw` and
`hashPw`. -/

/-- The columns of the user model that the authentication and
password-change paths read or write. -/
structure User where
  id : String
  email : String
  password_hash : String
  is_active : Bool
  last_login_at : Option Int := none
deriving DecidableEq

/-- The relational store: the rows of the users table. -/
structure DB where
  users : List User
deriving DecidableEq

/-- UserRepository.get_by_email (first row whose email matches). -/
def get_by_email (db : DB) (email : String) : Option User :=
  db.users.find? (fun u => u.email == email)

/-- UserRepository.get_by_id. -/
def get_by_id (db : DB) (user_id : String) : Option User :=
  db.users.find? (fun u => u.id == user_id)

/-- UserRepository.update_last_login: sets last_login_at to now on the
matching row. -/
def update_last_login (db : DB) (user_id : String) (now : Int) : DB :=
  { users :=
      db.users.map (fun u =>
        if u.id == user_id then { u with last_login_at := some now } else u) }

/-- UserRepository.update with a password field: stores the bcrypt hash
of the new password on the matching row. -/
def update_password (db : DB) (hashPw : String → String) (user_id : String)
    (new_password : String) : DB :=
  { users :=
      db.users.map (fun u =>
        if u.id == user_id
        then { u with password_hash := hashPw new_password } else u) }

/-- Result of a call of AuthService.authenticate_user: a LoginResponse,
a None return (generic authentication failure), a raised HTTPException
with a status code and detail string, or another raised exception named
by its type.  The raised constructor only ever occurs inside the try
body; the blanket handler turns every exception into the 500, so the
caller sees it as httpError. -/
inductive AuthOutcome where
  | success (resp : TokenResponse)
  | failure
  | httpError (statusCode : Nat) (detail : String)
  | raised (exc : String)
deriving DecidableEq

/-- AuthService._is_account_locked: int(redis GET or 0) ≥ 5. -/
def auth_is_account_locked (st : RedisState) (user_id : String) (now : Int) :
    Bool :=
  decide (5 ≤ (redisGet st (failedLoginKey user_id) now).getD 0)

/-- AuthService._record_failed_login: INCR then EXPIRE 3600,
unconditionally. -/
def auth_record_failed_login (st : RedisState) (user_id : String)
    (now : Int) : RedisState :=
  let key := failedLoginKey user_id
  let r := redisIncr st key now
  redisExpireCounter r.1 key 3600 now

/-- AuthService.authenticate_user.  The whole body sits inside
`try ... except Exception`, and fastapi HTTPException derives from
Exception, so every exception the body raises — the 403 locked and 400
inactive HTTPExceptions, and equally the AttributeError escaping
create_token_response on the success path — is caught by the blanket
handler and replaced by a 500 "Authentication error"; plain returns
(None or the LoginResponse) pass through.  Redis and database writes
performed before a raise persist. -/
def authenticate_user (s : Settings) (verifyPw : String → String → Bool)
    (db : DB) (st : RedisState) (email password : String) (now : Int) :
    DB × RedisState × AuthOutcome :=
  let inner : DB × RedisState × AuthOutcome :=
    match get_by_email db email with
    | none => (db, st, AuthOutcome.failure)
    | some user =>
      if auth_is_account_locked st user.id now then
        (db, st,
          AuthOutcome.httpError 403
            "Account is locked due to too many failed attempts")
      else if !(verifyPw password user.password_hash) then
        (db, auth_record_failed_login st user.id now, AuthOutcome.failure)
      else if !user.is_active then
        (db, st, AuthOutcome.httpError 400 "Inactive user")
      else
        let st1 := redisDelCounter st (failedLoginKey user.id)
        let db1 := update_last_login db user.id now
        match create_token_response s user.id now with
        | Except.error e => (db1, st1, AuthOutcome.raised e)
        | Except.ok tokens =>
          let st2 := redisSetex st1 ("refresh_token:" ++ user.id)
                       (86400 * 7) tokens.refresh_token now
          (db1, st2, AuthOutcome.success tokens)
  match inner with
  | (db1, st1, AuthOutcome.httpError _ _) =>
    (db1, st1, AuthOutcome.httpError 500 "Authentication error")
  | (db1, st1, AuthOutcome.raised _) =>
    (db1, st1, AuthOutcome.httpError 500 "Authentication error")
  | r => r

/-- ChangePassword request schema (app/schemas/user.py). -/
structure ChangePassword where
  current_password : String
  new_password : String
  confirm_password : String
deriving DecidableEq

/-- Result of UserService.change_password: a normal return or a raised
HTTPException. -/
inductive ChangeOutcome where
  | ok
  | httpError (statusCode : Nat) (detail : String)
deriving DecidableEq

/-- The special characters accepted by the password-strength regex
(the braces are the literal characters U+007B and U+007D). -/
def specialChars : List Char := "!@#$%^&*(),.?\":\x7b\x7d|<>".data

/-- SecurityService.validate_password_strength: length ≥ 8, at least one
of A-Z, a-z, 0-9 and one special character; returns the HTTPException it
raises, if any. -/
def validate_password_strength (password : String) :
    Option (Nat × String) :=
  if password.length < 8 then
    some (400, "Password must be at least 8 characters long")
  else if !(password.data.any Char.isUpper) then
    some (400, "Password must contain at least one uppercase letter")
  else if !(password.data.any Char.isLower) then
    some (400, "Password must contain at least one lowercase letter")
  else if !(password.data.any Char.isDigit) then
    some (400, "Password must contain at least one number")
  else if !(password.data.any (fun c => specialChars.contains c)) then
    some (400, "Password must contain at least one special character")
  else none

/-- UserService.change_password: rate limit (5 per hour on the
password_change key), look up the user, verify the current password
(recording a failed login on mismatch), then the lock check, the
new-password checks, and finally the update / history / counter-clear
block. -/
def change_password (verifyPw : String → String → Bool)
    (hashPw : String → String) (db : DB) (st : RedisState)
    (user_id : String) (pd : ChangePassword) (now : Int) :
    DB × RedisState × ChangeOutcome :=
  let rl := enforce_rate_limit st ("password_change:" ++ user_id) 5 3600 now
  let st := rl.1
  if !rl.2 then
    (db, st,
      ChangeOutcome.httpError 429
        "Too many password change attempts. Please try again later.")
  else
    match get_by_id db user_id with
    | none => (db, st, ChangeOutcome.httpError 404 "User not found")
    | some user =>
      if !(verifyPw pd.current_password user.password_hash) then
        let r := record_failed_login st user_id now
        (db, r.1, ChangeOutcome.httpError 400 "Incorrect password")
      else if is_account_locked st user_id now then
        (db, st,
          ChangeOutcome.httpError 403
            "Account is locked due to too many failed attempts")
      else if pd.new_password ≠ pd.confirm_password then
        (db, st, ChangeOutcome.httpError 400 "New passwords do not match")
      else
        match validate_password_strength pd.new_password with
        | some (c, d) => (db, st, ChangeOutcome.httpError c d)
        | none =>
          let new_password_hash := hashPw pd.new_password
          if !(check_password_history st user_id new_password_hash now) then
            (db, st,
              ChangeOutcome.httpError 400 "Password has been used recently")
          else
            let db1 := update_password db hashPw user_id pd.new_password
            let st1 := add_to_password_history st user_id new_password_hash now
            let st2 := clear_failed_logins st1 user_id
            (db1, st2, ChangeOutcome.ok)

/-! Scenario fixtures and spec-side definitions used by the claims. -/

/-- n successive record_failed_login calls for the same account at one
instant, with no intervening clear or expiry. -/
def iterateFailures : Nat → RedisState → String → Int → RedisState
  | 0, st, _, _ => st
  | n + 1, st, u, now => iterateFailures n (record_failed_login st u now).1 u now

/-- n successive add_to_password_history calls. -/
def pushHashes (st : RedisState) (u : String) (hs : List String)
    (now : Int) : RedisState :=
  hs.foldl (fun s h => add_to_password_history s u h now) st

/-- The permit condition exactly as claim C4 words it: record the current
timestamp, purge the timestamps STRICTLY older than now minus
window_seconds, and permit iff the count of remaining timestamps is at
most max_requests. -/
def claimPermit (st : RedisState) (key : String) (max_requests : Nat)
    (window_seconds now : Int) : Bool :=
  let window_start := now - window_seconds
  let recorded := zaddEntry (zsetVal st key now) (toString now) now
  let remaining := recorded.filter (fun p => !(decide (p.2 < window_start)))
  decide (remaining.length ≤ max_requests)

/-- The amended permit condition: as claimPermit, but the purge is
inclusive — it also removes a timestamp lying exactly at now minus
window_seconds, matching the closed interval of ZREMRANGEBYSCORE. -/
def amendedPermit (st : RedisState) (key : String) (max_requests : Nat)
    (window_seconds now : Int) : Bool :=
  let window_start := now - window_seconds
  let recorded := zaddEntry (zsetVal st key now) (toString now) now
  let remaining := recorded.filter (fun p => decide (window_start < p.2))
  decide (remaining.length ≤ max_requests)

/-- A rate-limit key holding one request recorded at time 0 and not yet
expired; a further request at time 60 with a 60-second window puts the
old timestamp exactly on the window boundary. -/
def boundarySt : RedisState :=
  { emptyRedis with
      zsets := upd emptyRedis.zsets "k" (some ([("0", 0)], some 1000)) }

/-- The successive states and verdicts of the C4 scenario: the n-th call
of enforce_rate_limit with max_requests = 3, window 60, arrives at time
n - 1 (distinct timestamps in quick succession). -/
def rlRun : Nat → RedisState × Bool
  | 0 => (emptyRedis, true)
  | n + 1 => enforce_rate_limit (rlRun n).1 "k" 3 60 (n : Int)

/-- Every raw failed-login counter entry carries a finite expiry no later
than now + 3600. -/
def counterTTLBound (st : RedisState) (now : Int) : Prop :=
  ∀ u v e, st.counters (failedLoginKey u) = some (v, e) →
    ∃ texp, e = some texp ∧ texp ≤ now + 3600

/-- Stand-in for bcrypt verification in concrete runs: the stored hash is
the password itself and verification is equality. -/
def pwEq : String → String → Bool := fun p h => p == h

/-- Stand-in for bcrypt hashing in concrete runs. -/
def hashCat : String → String := fun p => "hash:" ++ p

/-- A single active user row. -/
def aliceRow : User :=
  { id := "u1", email := "a@x.com", password_hash := "H", is_active := true }

/-- A users table holding only aliceRow. -/
def testDB : DB := { users := [aliceRow] }

/-- A Redis state in which the failed-login counter of account u1 stands
at the lockout threshold with a live TTL. -/
def lockedSt : RedisState :=
  { emptyRedis with
      counters :=
        upd emptyRedis.counters (failedLoginKey "u1") (some (5, some 3600)) }

/-- A change-password request whose current password is wrong for
aliceRow under pwEq. -/
def wrongChange : ChangePassword :=
  { current_password := "bad"
    new_password := "Newpass1!"
    confirm_password := "Newpass1!" }

/-- The database and Redis state after n change_password attempts by u1
with the wrong current password, the n-th arriving at time n - 1. -/
def cpRun : Nat → DB × RedisState
  | 0 => (testDB, emptyRedis)
  | n + 1 =>
    let prev := cpRun n
    let r := change_password pwEq hashCat prev.1 prev.2 "u1" wrongChange (n : Int)
    (r.1, r.2.1)

/-! Helper lemmas shared by several claims. -/

/-- A bytes value is never found among str values: membership search for
a bytes candidate in a list of str items fails, whatever the contents
(the Python 3 equality bytes == str is always False). -/
theorem contains_bytes_false (l : List PyStr) (h : String)
    (hall : ∀ x ∈ l, x.isStr = true) :
    l.contains (PyStr.bytes h) = false := by
  induction l with
  | nil => rfl
  | cons a t ih =>
    have ha := hall a (List.mem_cons_self a t)
    cases a with
    | str s =>
      simp only [List.contains_cons, Bool.or_eq_false_iff]
      refine ⟨by simp, ih (fun x hx => hall x (List.mem_cons_of_mem _ hx))⟩
    | bytes s => simp [PyStr.isStr] at ha

/-- The value reported by INCR is the previous live value plus one
(1 on an absent or expired key). -/
theorem redisIncr_val (st : RedisState) (key : String) (now : Int) :
    (redisIncr st key now).2 = (redisGet st key now).getD 0 + 1 := by
  unfold redisIncr redisGet
  cases h : counterVal st key now with
  | none => simp
  | some ve =>
    obtain ⟨v, e⟩ := ve
    simp

/-- After record_failed_login the failed-login counter reads back as the
previous live value plus one. -/
theorem redisGet_record (st : RedisState) (u : String) (now : Int) :
    redisGet (record_failed_login st u now).1 (failedLoginKey u) now =
      some ((redisGet st (failedLoginKey u) now).getD 0 + 1) := by
  cases h : st.counters (failedLoginKey u) with
  | none =>
    simp [record_failed_login, redisIncr, redisExpireCounter, redisGet,
      counterVal, upd, liveUntil, h, password_attempt_expiry]
  | some ve =>
    obtain ⟨v, e⟩ := ve
    cases e with
    | none =>
      by_cases hv : v + 1 = 1
      · simp [record_failed_login, redisIncr, redisExpireCounter, redisGet,
          counterVal, upd, liveUntil, h, hv, password_attempt_expiry]
      · simp [record_failed_login, redisIncr, redisExpireCounter, redisGet,
          counterVal, upd, liveUntil, h, hv, password_attempt_expiry]
    | some texp =>
      by_cases hl : now < texp
      · by_cases hv : v + 1 = 1
        · simp [record_failed_login, redisIncr, redisExpireCounter, redisGet,
            counterVal, upd, liveUntil, h, hl, hv, password_attempt_expiry]
        · simp [record_failed_login, redisIncr, redisExpireCounter, redisGet,
            counterVal, upd, liveUntil, h, hl, hv, password_attempt_expiry]
      · simp [record_failed_login, redisIncr, redisExpireCounter, redisGet,
          counterVal, upd, liveUntil, h, hl, password_attempt_expiry]

/-- The Bool returned by record_failed_login is the lockout test applied
to the incremented counter value. -/
theorem record_failed_login_ret (st : RedisState) (u : String) (now : Int) :
    (record_failed_login st u now).2 =
      decide (5 ≤ (redisGet st (failedLoginKey u) now).getD 0 + 1) := by
  have h := redisIncr_val st (failedLoginKey u) now
  show decide (max_login_attempts ≤ (redisIncr st (failedLoginKey u) now).2)
      = _
  rw [h]
  rfl

/-- ZADD leaves the counters untouched. -/
theorem redisZadd_counters (st : RedisState) (k m : String) (sc now : Int) :
    (redisZadd st k m sc now).counters = st.counters := by
  unfold redisZadd
  cases h : st.zsets k with
  | none => rfl
  | some le =>
    obtain ⟨l, e⟩ := le
    cases hl : liveUntil now e <;> simp [hl]

/-- ZREMRANGEBYSCORE leaves the counters untouched. -/
theorem redisZrem_counters (st : RedisState) (k : String) (lo hi now : Int) :
    (redisZremrangebyscore st k lo hi now).counters = st.counters := by
  unfold redisZremrangebyscore
  cases h : st.zsets k with
  | none => rfl
  | some le =>
    obtain ⟨l, e⟩ := le
    cases hl : liveUntil now e <;> simp [hl]

/-- EXPIRE on a sorted-set key leaves the counters untouched. -/
theorem redisExpireZset_counters (st : RedisState) (k : String)
    (s now : Int) : (redisExpireZset st k s now).counters = st.counters := by
  unfold redisExpireZset
  cases h : st.zsets k with
  | none => rfl
  | some le =>
    obtain ⟨l, e⟩ := le
    cases hl : liveUntil now e <;> simp [hl]

/-- The rate limiter never touches the failed-login counters. -/
theorem enforce_rate_limit_counters (st : RedisState) (key : String)
    (m : Nat) (w now : Int) :
    ((enforce_rate_limit st key m w now).1).counters = st.counters := by
  show (redisExpireZset (redisZremrangebyscore
      (redisZadd st key (toString now) now now) key 0 (now - w) now)
        key w now).counters = st.counters
  rw [redisExpireZset_counters, redisZrem_counters, redisZadd_counters]

/-- redisGet only reads the counters. -/
theorem redisGet_congr (st st2 : RedisState) (key : String) (now : Int)
    (h : st.counters = st2.counters) :
    redisGet st key now = redisGet st2 key now := by
  unfold redisGet counterVal
  rw [h]

/-- The live view after ZADD is the member upsert of the previous live
view. -/
theorem zsetVal_zadd (st : RedisState) (key mem : String) (sc now : Int) :
    zsetVal (redisZadd st key mem sc now) key now =
      zaddEntry (zsetVal st key now) mem sc := by
  cases h : st.zsets key with
  | none => simp [zsetVal, redisZadd, upd, liveUntil, zaddEntry, h]
  | some le =>
    obtain ⟨l, e⟩ := le
    cases e with
    | none => simp [zsetVal, redisZadd, upd, liveUntil, zaddEntry, h]
    | some texp =>
      by_cases hl : now < texp <;>
        simp [zsetVal, redisZadd, upd, liveUntil, zaddEntry, h, hl]

/-- The live view after ZREMRANGEBYSCORE lo hi is the closed-interval
filter of the previous live view. -/
theorem zsetVal_zrem (st : RedisState) (key : String) (lo hi now : Int) :
    zsetVal (redisZremrangebyscore st key lo hi now) key now =
      (zsetVal st key now).filter
        (fun p => !(decide (lo ≤ p.2) && decide (p.2 ≤ hi))) := by
  cases h : st.zsets key with
  | none => simp [zsetVal, redisZremrangebyscore, h]
  | some le =>
    obtain ⟨l, e⟩ := le
    cases e with
    | none => simp [zsetVal, redisZremrangebyscore, upd, liveUntil, h]
    | some texp =>
      by_cases hl : now < texp <;>
        simp [zsetVal, redisZremrangebyscore, upd, liveUntil, h, hl]

/-- Over nonnegative scores, the closed-interval purge [0, ws] followed
by the count of scores ≥ ws equals the count of scores strictly above
ws. -/
theorem purge_count_eq (ws : Int) (l : List (String × Int))
    (hpos : ∀ p ∈ l, 0 ≤ p.2) :
    ((l.filter (fun p => !(decide (0 ≤ p.2) && decide (p.2 ≤ ws)))).filter
        (fun p => decide (ws ≤ p.2))).length =
      (l.filter (fun p => decide (ws < p.2))).length := by
  induction l with
  | nil => rfl
  | cons a t ih =>
    have ha : 0 ≤ a.2 := hpos a (List.mem_cons_self a t)
    have ht : ∀ p ∈ t, 0 ≤ p.2 := fun p hp => hpos p (List.mem_cons_of_mem a hp)
    by_cases hle : a.2 ≤ ws
    · have h1 : ¬ (ws < a.2) := not_lt.mpr hle
      simp only [List.filter_cons, decide_eq_true ha, decide_eq_true hle,
        Bool.and_self, Bool.not_true, decide_eq_false h1, Bool.false_eq_true,
        if_false]
      exact ih ht
    · have h1 : ws < a.2 := not_le.mp hle
      have h2 : ws ≤ a.2 := le_of_lt h1
      simp only [List.filter_cons, decide_eq_true ha, decide_eq_false hle,
        Bool.and_false, Bool.not_false, decide_eq_true h1, decide_eq_true h2,
        if_true, List.length_cons]
      exact congrArg Nat.succ (ih ht)

/-- The rate-limit verdict agrees with the inclusive-purge sliding-window
count, provided the clock and all stored timestamps are nonnegative. -/
theorem enforce_eq_amended (st : RedisState) (key : String) (m : Nat)
    (w now : Int) (hnow : 0 ≤ now)
    (hpos : ∀ p ∈ zsetVal st key now, 0 ≤ p.2) :
    (enforce_rate_limit st key m w now).2 =
      amendedPermit st key m w now := by
  have hA : ∀ p ∈ zaddEntry (zsetVal st key now) (toString now) now,
      0 ≤ p.2 := by
    intro p hp
    unfold zaddEntry at hp
    rcases List.mem_cons.mp hp with h | h
    · rw [h]
      exact hnow
    · exact hpos p (List.mem_of_mem_filter h)
  show decide (redisZcount (redisZremrangebyscore
      (redisZadd st key (toString now) now now) key 0 (now - w) now)
        key (now - w) now ≤ m) = _
  unfold redisZcount amendedPermit
  rw [zsetVal_zrem, zsetVal_zadd, purge_count_eq (now - w) _ hA]

/-- INCR writes only its own key. -/
theorem redisIncr_counters_other (st : RedisState) (k : String) (now : Int)
    (x : String) (hx : x ≠ k) :
    ((redisIncr st k now).1).counters x = st.counters x := by
  unfold redisIncr
  cases counterVal st k now with
  | none => simp [upd, hx]
  | some ve =>
    obtain ⟨v, e⟩ := ve
    simp [upd, hx]

/-- EXPIRE writes only its own key. -/
theorem redisExpireCounter_counters_other (st : RedisState) (k : String)
    (s now : Int) (x : String) (hx : x ≠ k) :
    (redisExpireCounter st k s now).counters x = st.counters x := by
  unfold redisExpireCounter
  cases counterVal st k now with
  | none => rfl
  | some ve =>
    obtain ⟨v, e⟩ := ve
    simp [upd, hx]

/-- record_failed_login writes only the counter of its own account. -/
theorem record_counters_other (st : RedisState) (u : String) (now : Int)
    (x : String) (hx : x ≠ failedLoginKey u) :
    ((record_failed_login st u now).1).counters x = st.counters x := by
  show (if (redisIncr st (failedLoginKey u) now).2 = 1
        then redisExpireCounter (redisIncr st (failedLoginKey u) now).1
              (failedLoginKey u) password_attempt_expiry now
        else (redisIncr st (failedLoginKey u) now).1).counters x =
      st.counters x
  by_cases ha : (redisIncr st (failedLoginKey u) now).2 = 1
  · rw [if_pos ha, redisExpireCounter_counters_other _ _ _ _ _ hx,
      redisIncr_counters_other _ _ _ _ hx]
  · rw [if_neg ha, redisIncr_counters_other _ _ _ _ hx]

/-- A record_failed_login on an absent counter creates it with value 1
and the 1-hour expiry in one step. -/
theorem record_fresh_entry (st : RedisState) (u : String) (now : Int)
    (h : st.counters (failedLoginKey u) = none) :
    ((record_failed_login st u now).1).counters (failedLoginKey u) =
      some (1, some (now + 3600)) := by
  simp [record_failed_login, redisIncr, redisExpireCounter, counterVal, upd,
    liveUntil, h, password_attempt_expiry]

/-- The entry record_failed_login leaves under its own key: either
freshly stamped with the 1-hour expiry, or incremented in place with the
previous expiry kept. -/
theorem record_counters_self (st : RedisState) (u : String) (now : Int) :
    (∃ v, ((record_failed_login st u now).1).counters (failedLoginKey u) =
        some (v, some (now + 3600))) ∨
    (∃ v e, ((record_failed_login st u now).1).counters (failedLoginKey u) =
        some (v + 1, e) ∧ st.counters (failedLoginKey u) = some (v, e)) := by
  cases h : st.counters (failedLoginKey u) with
  | none =>
    left
    exact ⟨1, record_fresh_entry st u now h⟩
  | some ve =>
    obtain ⟨v0, e0⟩ := ve
    cases e0 with
    | none =>
      by_cases hv : v0 + 1 = 1
      · left
        exact ⟨1, by simp [record_failed_login, redisIncr,
          redisExpireCounter, counterVal, upd, liveUntil, h, hv,
          password_attempt_expiry]⟩
      · right
        exact ⟨v0, none, by simp [record_failed_login, redisIncr,
          redisExpireCounter, counterVal, upd, liveUntil, h, hv,
          password_attempt_expiry], rfl⟩
    | some texp =>
      by_cases hl : now < texp
      · by_cases hv : v0 + 1 = 1
        · left
          exact ⟨1, by simp [record_failed_login, redisIncr,
            redisExpireCounter, counterVal, upd, liveUntil, h, hl, hv,
            password_attempt_expiry]⟩
        · right
          exact ⟨v0, some texp, by simp [record_failed_login, redisIncr,
            redisExpireCounter, counterVal, upd, liveUntil, h, hl, hv,
            password_attempt_expiry], rfl⟩
      · left
        exact ⟨1, by simp [record_failed_login, redisIncr,
          redisExpireCounter, counterVal, upd, liveUntil, h, hl,
          password_attempt_expiry]⟩

/-- record_failed_login preserves the TTL bound on all counters. -/
theorem record_preserves_bound (st : RedisState) (u : String) (now : Int)
    (hb : counterTTLBound st now) :
    counterTTLBound (record_failed_login st u now).1 now := by
  intro w v e hw
  by_cases hx : failedLoginKey w = failedLoginKey u
  · rw [hx] at hw
    rcases record_counters_self st u now with ⟨v1, h⟩ | ⟨v1, e1, h, hold⟩
    · rw [h] at hw
      injection hw with hw2
      injection hw2 with hv he
      subst he
      exact ⟨now + 3600, rfl, le_refl _⟩
    · rw [h] at hw
      injection hw with hw2
      injection hw2 with hv he
      subst he
      exact hb w v1 e1 (by rw [hx]; exact hold)
  · rw [record_counters_other st u now _ hx] at hw
    exact hb w v e hw

/-- clear_failed_logins preserves the TTL bound on all counters. -/
theorem clear_preserves_bound (st : RedisState) (u : String) (now : Int)
    (hb : counterTTLBound st now) :
    counterTTLBound (clear_failed_logins st u) now := by
  intro w v e hw
  by_cases hx : failedLoginKey w = failedLoginKey u
  · simp [clear_failed_logins, redisDelCounter, upd, hx] at hw
  · simp only [clear_failed_logins, redisDelCounter, upd] at hw
    rw [if_neg hx] at hw
    exact hb w v e hw

/-- The entry the login path writes (INCR then unconditional EXPIRE)
always carries the fresh 1-hour expiry. -/
theorem auth_record_entry (st : RedisState) (u : String) (now : Int) :
    ∃ v, (auth_record_failed_login st u now).counters (failedLoginKey u) =
      some (v, some (now + 3600)) := by
  cases h : st.counters (failedLoginKey u) with
  | none =>
    exact ⟨1, by simp [auth_record_failed_login, redisIncr,
      redisExpireCounter, counterVal, upd, liveUntil, h]⟩
  | some ve =>
    obtain ⟨v0, e0⟩ := ve
    cases e0 with
    | none =>
      exact ⟨v0 + 1, by simp [auth_record_failed_login, redisIncr,
        redisExpireCounter, counterVal, upd, liveUntil, h]⟩
    | some texp =>
      by_cases hl : now < texp
      · exact ⟨v0 + 1, by simp [auth_record_failed_login, redisIncr,
          redisExpireCounter, counterVal, upd, liveUntil, h, hl]⟩
      · exact ⟨1, by simp [auth_record_failed_login, redisIncr,
          redisExpireCounter, counterVal, upd, liveUntil, h, hl]⟩

/-- The login-path record call writes only the counter of its own
account. -/
theorem auth_record_counters_other (st : RedisState) (u : String)
    (now : Int) (x : String) (hx : x ≠ failedLoginKey u) :
    (auth_record_failed_login st u now).counters x = st.counters x := by
  show (redisExpireCounter (redisIncr st (failedLoginKey u) now).1
      (failedLoginKey u) 3600 now).counters x = st.counters x
  rw [redisExpireCounter_counters_other _ _ _ _ _ hx,
    redisIncr_counters_other _ _ _ _ hx]

/-- The login-path record call preserves the TTL bound on all
counters. -/
theorem auth_record_preserves_bound (st : RedisState) (u : String)
    (now : Int) (hb : counterTTLBound st now) :
    counterTTLBound (auth_record_failed_login st u now) now := by
  intro w v e hw
  by_cases hx : failedLoginKey w = failedLoginKey u
  · rw [hx] at hw
    obtain ⟨v1, h⟩ := auth_record_entry st u now
    rw [h] at hw
    injection hw with hw2
    injection hw2 with hv he
    subst he
    exact ⟨now + 3600, rfl, le_refl _⟩
  · rw [auth_record_counters_other st u now _ hx] at hw
    exact hb w v e hw

/-- Under the TTL bound, the lock observably vanishes once the 1-hour
window has passed. -/
theorem locked_dies_after_ttl (st : RedisState) (now : Int) (u : String)
    (hb : counterTTLBound st now) (t : Int) (ht : now + 3600 ≤ t) :
    is_account_locked st u t = false := by
  cases h : st.counters (failedLoginKey u) with
  | none => simp [is_account_locked, redisGet, counterVal, h]
  | some ve =>
    obtain ⟨v, e⟩ := ve
    obtain ⟨texp, he, hle⟩ := hb u v e h
    subst he
    have hdead : ¬ (t < texp) := by omega
    simp [is_account_locked, redisGet, counterVal, liveUntil, h, hdead]

/-! The claims. -/

/-- C1: app/core/config.py (class Settings) declares JWT_ALGORITHM and
no field named ALGORITHM, while create_access_token and verify_token
read settings.ALGORITHM on every call; the read raises AttributeError
(pydantic v2 exposes only declared fields), which no handler on either
path catches — verify_token catches only jwt.JWTError.  So for every
subject, ttl, clock and settings value the code raises instead of
issuing or verifying, and no verify-after-issue round trip can occur.
The first conjunct evaluates the code at the concrete failing input. -/
theorem C1_token_round_trip_raises :
    create_access_token testSettings "alice" (some 60) 0 =
      Except.error "AttributeError" ∧
    (∀ (s : Settings) (subject : String) (d : Option Int) (now : Int),
      create_access_token s subject d now = Except.error "AttributeError") ∧
    (∀ (s : Settings) (tok : Jwt) (now : Int),
      verify_token s tok now = Except.error "AttributeError") := by
  refine ⟨rfl, ?_, ?_⟩
  · intro s subject d now
    rfl
  · intro s tok now
    rfl

/-- C2: refresh_access_token first calls verify_token, whose
settings.ALGORITHM read raises AttributeError; the exception escapes
refresh for every input token (refresh has no handler), so refresh
neither returns None nor returns a new access token — and no refresh
token can be issued in the first place, since create_refresh_token
raises the same way.  The last conjunct evaluates the code on a
concrete, well-formed refresh token. -/
theorem C2_refresh_raises :
    (∀ (s : Settings) (tok : Jwt) (now : Int),
      refresh_access_token s tok now = Except.error "AttributeError") ∧
    (∀ (s : Settings) (subject : String) (now : Int),
      create_refresh_token s subject now = Except.error "AttributeError") ∧
    refresh_access_token testSettings
      (jwtEncode { exp := 1000, sub := "bob", type? := some "refresh" }
        "secret" "HS256") 0 = Except.error "AttributeError" := by
  refine ⟨?_, ?_, rfl⟩
  · intro s tok now
    rfl
  · intro s subject now
    rfl

/-- C3: from a fresh account, five record_failed_login calls make
is_account_locked true and four leave it false; in general the lock
check is exactly the threshold-5 test on the live counter value. -/
theorem C3_lockout_threshold :
    is_account_locked (iterateFailures 5 emptyRedis "u1" 0) "u1" 0 = true ∧
    is_account_locked (iterateFailures 4 emptyRedis "u1" 0) "u1" 0 = false ∧
    ∀ st u now, is_account_locked st u now =
      decide (5 ≤ (redisGet st (failedLoginKey u) now).getD 0) := by
  refine ⟨by decide, by decide, ?_⟩
  intro st u now
  unfold is_account_locked max_login_attempts
  cases h : redisGet st (failedLoginKey u) now with
  | none => rfl
  | some v => rfl

/-- C5: the source compares new_password_hash.encode() — a BYTES value —
against the str items that the decode_responses=True client returns from
lrange, and bytes never equals str in Python 3, so check_password_history
returns True (may use) for EVERY candidate: immediately after
record(a, h1) the check on h1 still returns true, refuting the claimed
false, and the check does not even block the newest recorded hash.  The
last conjunct states the general fact for every state whose stored
history items are str values, as every reply of the repository clients
is. -/
theorem C5_reuse_never_blocked :
    check_password_history (add_to_password_history emptyRedis "u1" "h1" 0)
      "u1" "h1" 0 = true ∧
    check_password_history
      (pushHashes emptyRedis "u1" ["h1", "h2", "h3", "h4", "h5", "h6"] 0)
      "u1" "h6" 0 = true ∧
    ∀ st u hsh now,
      (∀ x ∈ listVal st (passwordHistoryKey u) now, x.isStr = true) →
      check_password_history st u hsh now = true := by
  refine ⟨by decide, by decide, ?_⟩
  intro st u hsh now hall
  have hc : (redisLrange st (passwordHistoryKey u) 0 4 now).contains
      (PyStr.bytes hsh) = false := by
    apply contains_bytes_false
    intro x hx
    simp only [redisLrange] at hx
    exact hall x (List.drop_subset _ _ (List.take_subset _ _ hx))
  show (!(redisLrange st (passwordHistoryKey u) 0 4 now).contains
      (PyStr.bytes hsh)) = true
  rw [hc]
  rfl

/-- Closed instance of the general part of C5_reuse_never_blocked: after
one record the stored history consists of str values, and the check then
allows an unrelated candidate as well. -/
theorem C5_reuse_never_blocked_witness :
    (∀ x ∈ listVal (add_to_password_history emptyRedis "u1" "h1" 0)
        (passwordHistoryKey "u1") 0, PyStr.isStr x = true) ∧
    check_password_history (add_to_password_history emptyRedis "u1" "h1" 0)
      "u1" "h2" 0 = true := by
  refine ⟨by decide, ?_⟩
  exact C5_reuse_never_blocked.2.2
    (add_to_password_history emptyRedis "u1" "h1" 0) "u1" "h2" 0 (by decide)

/-- C9, counterexample: after five previous failures the counter already
stands at the threshold (5, not below it), yet the sixth
record_failed_login call still returns true — the return value is not
restricted to the crossing call. -/
theorem C9_counterexample :
    redisGet (iterateFailures 5 emptyRedis "u1" 0) (failedLoginKey "u1") 0 =
      some 5 ∧
    (record_failed_login (iterateFailures 5 emptyRedis "u1" 0) "u1" 0).2 =
      true := by
  decide

/-- C9 (amended): record_failed_login returns true exactly when the
post-increment counter is at least 5 — on the crossing call and on every
later failure while the counter lives. -/
theorem C9_threshold_return (st : RedisState) (u : String) (now : Int) :
    (record_failed_login st u now).2 =
      decide (5 ≤
        (redisGet (record_failed_login st u now).1
          (failedLoginKey u) now).getD 0) := by
  rw [record_failed_login_ret, redisGet_record, Option.getD_some]

/-- C4, counterexample: with a stored timestamp lying exactly at
now - window_seconds, the code (closed-interval purge, ZREMRANGEBYSCORE
0..window_start) permits the request while the formula of the claim
(purge only the timestamps STRICTLY older than now - window_seconds)
denies it: the claimed iff fails at the window boundary. -/
theorem C4_counterexample :
    (enforce_rate_limit boundarySt "k" 1 60 60).2 = true ∧
    claimPermit boundarySt "k" 1 60 60 = false := by
  decide

/-- C4 (amended): the limiter permits iff, after recording now and
purging the timestamps AT LEAST window_seconds old (inclusive), the
count of the remaining timestamps is at most max_requests — provided the
clock and the stored timestamps are nonnegative, as unix timestamps are;
and the concrete scenario holds: with max_requests 3 and window 60, four
quick calls return true, true, true, false, and a call after more than
60 further seconds returns true again. -/
theorem C4_sliding_window (st : RedisState) (key : String) (m : Nat)
    (w now : Int) (hnow : 0 ≤ now)
    (hpos : ∀ p ∈ zsetVal st key now, 0 ≤ p.2) :
    ((enforce_rate_limit st key m w now).2 =
      amendedPermit st key m w now) ∧
    (rlRun 1).2 = true ∧ (rlRun 2).2 = true ∧ (rlRun 3).2 = true ∧
    (rlRun 4).2 = false ∧
    (enforce_rate_limit (rlRun 4).1 "k" 3 60 64).2 = true :=
  ⟨enforce_eq_amended st key m w now hnow hpos, by decide, by decide,
    by decide, by decide, by decide⟩

/-- Closed instance of C4_sliding_window at the boundary state, where the
amended formula and the code agree. -/
theorem C4_sliding_window_witness :
    ((0 : Int) ≤ 60) ∧ (∀ p ∈ zsetVal boundarySt "k" 60, 0 ≤ p.2) ∧
    (enforce_rate_limit boundarySt "k" 1 60 60).2 =
      amendedPermit boundarySt "k" 1 60 60 :=
  ⟨by decide, by decide,
    (C4_sliding_window boundarySt "k" 1 60 60 (by decide) (by decide)).1⟩

/-- C6: on a locked account the 403 AccountLocked HTTPException raised
inside authenticate_user is caught by the blanket `except Exception`
handler of the same function and replaced by the generic 500
"Authentication error" — the caller never receives the distinct
AccountLocked condition, even with the correct password. -/
theorem C6_locked_becomes_generic_500 :
    auth_is_account_locked lockedSt "u1" 10 = true ∧
    (authenticate_user testSettings pwEq testDB lockedSt "a@x.com" "H"
        10).2.2 = AuthOutcome.httpError 500 "Authentication error" := by
  decide

/-- C7: a run with an unknown email and a run with a known email but a
wrong password (on an account that is not locked) both return the same
generic failure outcome (None), so the caller cannot tell them apart. -/
theorem C7_no_enumeration (s : Settings)
    (verifyPw : String → String → Bool) (db : DB) (st : RedisState)
    (e1 e2 pw1 pw2 : String) (now : Int) (u : User)
    (h1 : get_by_email db e1 = none)
    (h2 : get_by_email db e2 = some u)
    (h3 : auth_is_account_locked st u.id now = false)
    (h4 : verifyPw pw2 u.password_hash = false) :
    (authenticate_user s verifyPw db st e1 pw1 now).2.2 =
        AuthOutcome.failure ∧
    (authenticate_user s verifyPw db st e2 pw2 now).2.2 =
        AuthOutcome.failure := by
  constructor
  · simp [authenticate_user, h1]
  · simp [authenticate_user, h2, h3, h4]

/-- Closed instance of C7_no_enumeration: unknown email versus wrong
password for aliceRow, both yielding the failure outcome. -/
theorem C7_no_enumeration_witness :
    get_by_email testDB "nobody@x.com" = none ∧
    get_by_email testDB "a@x.com" = some aliceRow ∧
    auth_is_account_locked emptyRedis aliceRow.id 0 = false ∧
    pwEq "bad" aliceRow.password_hash = false ∧
    ((authenticate_user testSettings pwEq testDB emptyRedis "nobody@x.com"
        "x" 0).2.2 = AuthOutcome.failure ∧
      (authenticate_user testSettings pwEq testDB emptyRedis "a@x.com"
        "bad" 0).2.2 = AuthOutcome.failure) := by
  refine ⟨by decide, by decide, by decide, by decide, ?_⟩
  exact C7_no_enumeration testSettings pwEq testDB emptyRedis "nobody@x.com"
    "a@x.com" "x" "bad" 0 aliceRow (by decide) (by decide) (by decide)
    (by decide)

/-- C8: the first increment stamps the counter with the 1-hour expiry;
the TTL bound (every live counter expires within 1 hour of now) is
preserved by both record paths and by clear; and under that bound an
account is observably unlocked at every instant from 1 hour on, even if
clear is never called. -/
theorem C8_counter_ttl_invariant (st : RedisState) (now : Int) (u : String)
    (hb : counterTTLBound st now) :
    (st.counters (failedLoginKey u) = none →
      ((record_failed_login st u now).1).counters (failedLoginKey u) =
        some (1, some (now + 3600))) ∧
    counterTTLBound (record_failed_login st u now).1 now ∧
    counterTTLBound (clear_failed_logins st u) now ∧
    counterTTLBound (auth_record_failed_login st u now) now ∧
    ∀ t, now + 3600 ≤ t → is_account_locked st u t = false :=
  ⟨fun h => record_fresh_entry st u now h,
    record_preserves_bound st u now hb,
    clear_preserves_bound st u now hb,
    auth_record_preserves_bound st u now hb,
    fun t ht => locked_dies_after_ttl st now u hb t ht⟩

/-- Closed instance of C8_counter_ttl_invariant: a failure recorded at
time 0 no longer locks the account at time 3600. -/
theorem C8_counter_ttl_invariant_witness :
    counterTTLBound emptyRedis 0 ∧
    is_account_locked (record_failed_login emptyRedis "u1" 0).1 "u1" 3600 =
      false := by
  have h0 : counterTTLBound emptyRedis 0 := by
    intro u v e h
    exact absurd h (by simp [emptyRedis])
  have h1 : counterTTLBound (record_failed_login emptyRedis "u1" 0).1 0 :=
    (C8_counter_ttl_invariant emptyRedis 0 "u1" h0).2.1
  exact ⟨h0,
    (C8_counter_ttl_invariant (record_failed_login emptyRedis "u1" 0).1 0
      "u1" h1).2.2.2.2 3600 (by omega)⟩

/-- C10: a change_password call that passes the rate limit, finds the
user and fails current-password verification leaves the failed_login
counter of that account incremented by one — the very counter the login
path reads; concretely, five wrong-current-password attempts drive the
counter to 5, the login-path lock check then reports locked, and a login
with the CORRECT password is rejected. -/
theorem C10_change_password_lockout :
    (∀ (verifyPw : String → String → Bool) (hashPw : String → String)
        (db : DB) (st : RedisState) (uid : String) (pd : ChangePassword)
        (now : Int) (u : User),
      get_by_id db uid = some u →
      verifyPw pd.current_password u.password_hash = false →
      (enforce_rate_limit st ("password_change:" ++ uid) 5 3600 now).2 =
        true →
      redisGet (change_password verifyPw hashPw db st uid pd now).2.1
          (failedLoginKey uid) now =
        some ((redisGet st (failedLoginKey uid) now).getD 0 + 1)) ∧
    (change_password pwEq hashCat (cpRun 4).1 (cpRun 4).2 "u1" wrongChange
        4).2.2 = ChangeOutcome.httpError 400 "Incorrect password" ∧
    redisGet (cpRun 5).2 (failedLoginKey "u1") 4 = some 5 ∧
    auth_is_account_locked (cpRun 5).2 "u1" 4 = true ∧
    (authenticate_user testSettings pwEq (cpRun 5).1 (cpRun 5).2 "a@x.com"
        "H" 5).2.2 = AuthOutcome.httpError 500 "Authentication error" := by
  refine ⟨?_, by decide, by decide, by decide, by decide⟩
  intro verifyPw hashPw db st uid pd now u hu hv hr
  have hc : (change_password verifyPw hashPw db st uid pd now).2.1 =
      (record_failed_login
        (enforce_rate_limit st ("password_change:" ++ uid) 5 3600 now).1
        uid now).1 := by
    simp [change_password, hr, hu, hv]
  rw [hc, redisGet_record,
    redisGet_congr (enforce_rate_limit st ("password_change:" ++ uid) 5
        3600 now).1 st (failedLoginKey uid) now
      (enforce_rate_limit_counters st ("password_change:" ++ uid) 5 3600
        now)]

/-- Closed instance of the general part of C10_change_password_lockout:
one wrong-current-password change attempt from the empty state raises
the counter from absent to 1. -/
theorem C10_change_password_lockout_witness :
    get_by_id testDB "u1" = some aliceRow ∧
    pwEq wrongChange.current_password aliceRow.password_hash = false ∧
    (enforce_rate_limit emptyRedis ("password_change:" ++ "u1") 5 3600
        0).2 = true ∧
    redisGet (change_password pwEq hashCat testDB emptyRedis "u1"
        wrongChange 0).2.1 (failedLoginKey "u1") 0 =
      some ((redisGet emptyRedis (failedLoginKey "u1") 0).getD 0 + 1) := by
  refine ⟨by decide, by decide, by decide, ?_⟩
  exact C10_change_password_lockout.1 pwEq hashCat testDB emptyRedis "u1"
    wrongChange 0 aliceRow (by decide) (by decide) (by decide)

end TaskAPI
